import Mathlib

/-!
Verification of the command-segmentation engine and terminal session controller
of the voice-CLI-control repository.

The engine is embedded shallowly from `voice_cli_control/voice_controller.py`
and the session controller from `voice_cli_control/terminal_controller.py`.
Python strings are modelled as `List Char` (all data handled by the program is
ASCII); Python `time.time()` instants are modelled as integers (only ordering and subtraction of instants is ever used); Python dicts
(which preserve insertion order) are modelled as association lists.
-/

/-! ## Python string primitives -/

/-- String literal to `List Char`. -/
def chars (s : String) : List Char := s.toList

/-- ASCII model of `str.lower()` on one character. -/
def lowerChar (c : Char) : Char :=
  if 'A' ≤ c ∧ c ≤ 'Z' then Char.ofNat (c.toNat + 32) else c

/-- ASCII model of `str.lower()`. -/
def lowerStr (l : List Char) : List Char := l.map lowerChar

/-- The whitespace characters stripped by Python `str.strip()`. -/
def isPySpace (c : Char) : Bool :=
  c = ' ' || c = '\t' || c = '\n' || c = '\r' || c = Char.ofNat 11 || c = Char.ofNat 12

/-- Model of `str.strip()`: drop whitespace from both ends. -/
def pyStrip (l : List Char) : List Char :=
  ((l.dropWhile isPySpace).reverse.dropWhile isPySpace).reverse

/-- A regex word character (`\w`), ASCII model. -/
def isWordChar (c : Char) : Bool :=
  ('a' ≤ c ∧ c ≤ 'z') || ('A' ≤ c ∧ c ≤ 'Z') || ('0' ≤ c ∧ c ≤ '9') || c = '_'

/-- Earliest match position of `re.escape(n)` searched in `h`
(`re.search`, pattern already lower-cased by the caller for `re.IGNORECASE`). -/
def findSub (n : List Char) : List Char → Option Nat
  | [] => if n.isPrefixOf [] then some 0 else none
  | c :: t =>
      if n.isPrefixOf (c :: t) then some 0
      else (findSub n t).map (fun i => i + 1)

/-! ## Data model: `VoiceCommandType`, `VoiceCommand` (`voice_controller.py:25-39`) -/

/-- `VoiceCommandType` enum. -/
inductive VoiceCommandType where
  | text
  | key
  | control
  | system
deriving DecidableEq, Repr

/-- The `VoiceCommand` dataclass (defaults `confidence=1.0`, `timestamp=0.0`). -/
structure VoiceCommand where
  type : VoiceCommandType
  content : List Char
  confidence : ℤ := 1
  timestamp : ℤ := 0
deriving DecidableEq, Repr

deriving instance DecidableEq for Except

/-- A trigger table: insertion-ordered association list modelling a Python dict. -/
abbrev TriggerTable := List (List Char × List Char)

/-- Dict membership / lookup (`text_lower in self.VOICE_TRIGGERS`). -/
def lookupTbl (tbl : TriggerTable) (k : List Char) : Option (List Char) :=
  (tbl.find? (fun e => e.1 == k)).map (fun e => e.2)

/-- `VoiceController.VOICE_TRIGGERS` class attribute (`voice_controller.py:46-85`),
in source order. -/
def VOICE_TRIGGERS : TriggerTable := [
  (chars "enter", chars "Enter"),
  (chars "press enter", chars "Enter"),
  (chars "hit enter", chars "Enter"),
  (chars "return", chars "Enter"),
  (chars "new line", chars "Enter"),
  (chars "tab", chars "Tab"),
  (chars "press tab", chars "Tab"),
  (chars "backspace", chars "Backspace"),
  (chars "delete", chars "Delete"),
  (chars "escape", chars "Escape"),
  (chars "press escape", chars "Escape"),
  (chars "up arrow", chars "Up"),
  (chars "down arrow", chars "Down"),
  (chars "left arrow", chars "Left"),
  (chars "right arrow", chars "Right"),
  (chars "page up", chars "PageUp"),
  (chars "page down", chars "PageDown"),
  (chars "home", chars "Home"),
  (chars "end", chars "End"),
  (chars "control c", chars "Ctrl+C"),
  (chars "control d", chars "Ctrl+D"),
  (chars "control z", chars "Ctrl+Z"),
  (chars "break", chars "Ctrl+C"),
  (chars "exit", chars "Ctrl+D"),
  (chars "stop", chars "Ctrl+C"),
  (chars "start recording", chars "START_RECORDING"),
  (chars "stop recording", chars "STOP_RECORDING"),
  (chars "pause recording", chars "PAUSE_RECORDING"),
  (chars "resume recording", chars "RESUME_RECORDING"),
  (chars "clear terminal", chars "CLEAR"),
  (chars "clear screen", chars "CLEAR")]

/-- `VoiceController.PUNCTUATION_MAP` (`voice_controller.py:88-125`), in source
order.  Symbols that the surrounding tooling cannot hold literally are written
with `Char.ofNat` (34 `"`; 39 `'`; 96 the grave accent; 123/125 the braces). -/
def PUNCTUATION_MAP : List (List Char × List Char) := [
  (chars "period", chars "."),
  (chars "dot", chars "."),
  (chars "comma", chars ","),
  (chars "question mark", chars "?"),
  (chars "exclamation mark", chars "!"),
  (chars "exclamation point", chars "!"),
  (chars "colon", chars ":"),
  (chars "semicolon", chars ";"),
  (chars "quote", [Char.ofNat 34]),
  (chars "single quote", [Char.ofNat 39]),
  (chars "apostrophe", [Char.ofNat 39]),
  (chars "open parenthesis", chars "("),
  (chars "close parenthesis", chars ")"),
  (chars "open bracket", chars "["),
  (chars "close bracket", chars "]"),
  (chars "open brace", [Char.ofNat 123]),
  (chars "close brace", [Char.ofNat 125]),
  (chars "slash", chars "/"),
  (chars "backslash", chars "\\"),
  (chars "pipe", chars "|"),
  (chars "ampersand", chars "&"),
  (chars "at sign", chars "@"),
  (chars "hashtag", chars "#"),
  (chars "dollar sign", chars "$"),
  (chars "percent", chars "%"),
  (chars "caret", chars "^"),
  (chars "asterisk", chars "*"),
  (chars "plus", chars "+"),
  (chars "minus", chars "-"),
  (chars "equals", chars "="),
  (chars "underscore", chars "_"),
  (chars "tilde", chars "~"),
  (chars "backtick", [Char.ofNat 96]),
  (chars "less than", chars "<"),
  (chars "greater than", chars ">"),
  (chars "space", chars " ")]

/-! ## Punctuation substitution (`_process_text`, `voice_controller.py:363-379`) -/

/-- Word boundary (`\b`) to the left of the current position: the previous
original character, if any, must not be a word character. -/
def boundaryBefore (prev : Option Char) : Bool :=
  match prev with
  | none => true
  | some c => !(isWordChar c)

/-- Word boundary (`\b`) to the right of a match: the following original
character, if any, must not be a word character. -/
def boundaryAfter (rest : List Char) : Bool :=
  match rest with
  | [] => true
  | c :: _ => !(isWordChar c)

/-- Python message of the `re.error` raised for a replacement template that
ends in a lone backslash. -/
def badEscapeMsg : List Char := chars "bad escape (end of pattern) at position 0"

/-- Validation of the replacement template that `pattern.sub(symbol, text)`
parses *before* scanning, so it raises even when the pattern never occurs in
the text (`re._parser.parse_template`).  A backslash ending the template is
`re.error("bad escape (end of pattern) at position 0")`.  Other escapes are
accepted here: the only backslash any `PUNCTUATION_MAP` symbol contains is the
lone one of the `"backslash"` entry, so no other escape form is ever parsed. -/
def templateError : List Char → Option (List Char)
  | [] => none
  | c :: rest =>
      if c = '\\' then
        match rest with
        | [] => some badEscapeMsg
        | _ :: rest' => templateError rest'
      else templateError rest

/-- The scanning pass of `re.sub(r'\b'+re.escape(w)+r'\b', sym, text,
re.IGNORECASE)`: left to right, replacing non-overlapping whole-word matches.
`fuel` (called with `rest.length`) only bounds the recursion; every step
consumes at least one character, so it never runs out for the nonempty words
of `PUNCTUATION_MAP`. -/
def subWordGo (w sym : List Char) (fuel : Nat) (prev : Option Char) (rest : List Char) :
    List Char :=
  match fuel with
  | 0 => rest
  | fuel + 1 =>
      match rest with
      | [] => []
      | c :: cs =>
          if w.isPrefixOf (lowerStr (c :: cs)) && boundaryBefore prev &&
              boundaryAfter ((c :: cs).drop w.length) then
            sym ++ subWordGo w sym fuel ((c :: cs).take w.length).getLast? ((c :: cs).drop w.length)
          else
            c :: subWordGo w sym fuel (some c) cs

/-- One `pattern.sub(sym, text)` call: whole-word, case-insensitive
substitution of one punctuation word — after the template has been parsed,
which raises for an invalid template regardless of any match. -/
def subWord (w sym t : List Char) : Except (List Char) (List Char) :=
  match templateError sym with
  | some e => Except.error e
  | none => Except.ok (subWordGo w sym t.length none t)

/-- `VoiceController._process_text`: apply every `PUNCTUATION_MAP` entry in
order, then strip.  The `"backslash"` entry's symbol is an invalid replacement
template, so every call raises `re.error` there (after the 18 earlier entries
have already been substituted into the local text). -/
def processText (t : List Char) : Except (List Char) (List Char) := do
  let r ← PUNCTUATION_MAP.foldlM (fun acc e => subWord e.1 e.2 acc) t
  pure (pyStrip r)

/-! ## Segmentation (`_split_by_triggers`, `_parse_transcription`) -/

/-- A part produced by `_split_by_triggers`: either leftover text or an
already-built `VoiceCommand`. -/
inductive SplitPart where
  | text (s : List Char)
  | cmd (c : VoiceCommand)
deriving DecidableEq, Repr

/-- Scan the trigger table in insertion order keeping the strictly earliest
match (`voice_controller.py:326-339`; `earliest_pos` starts at
`len(remaining)`). -/
def findEarliestGo (rem : List Char) (trigs : TriggerTable) (bestPos : Nat)
    (best : Option (List Char × List Char)) : Option (Nat × List Char × List Char) :=
  match trigs with
  | [] => best.map (fun b => (bestPos, b))
  | (p, a) :: rest =>
      match findSub (lowerStr p) (lowerStr rem) with
      | some i =>
          if i < bestPos then findEarliestGo rem rest i (some (p, a))
          else findEarliestGo rem rest bestPos best
      | none => findEarliestGo rem rest bestPos best

/-- Earliest trigger occurrence in `rem`, ties resolved by table order. -/
def findEarliest (trigs : TriggerTable) (rem : List Char) :
    Option (Nat × List Char × List Char) :=
  findEarliestGo rem trigs rem.length none

/-- Kind tag used by `_split_by_triggers` (`voice_controller.py:347`): only
`START_`/`STOP_` prefixes yield a control command. -/
def splitKind (key : List Char) : VoiceCommandType :=
  if (chars "START_").isPrefixOf key || (chars "STOP_").isPrefixOf key then
    VoiceCommandType.control
  else VoiceCommandType.key

/-- The `while remaining:` loop of `_split_by_triggers`
(`voice_controller.py:326-359`).  `fuel` (called with `length + 1`) bounds the
recursion; it can only be exhausted when the table holds an empty phrase, in
which case the Python loop does not terminate either. -/
def splitGo (trigs : TriggerTable) (fuel : Nat) (rem : List Char) : List SplitPart :=
  match fuel with
  | 0 => []
  | fuel + 1 =>
      if rem = [] then []
      else
        match findEarliest trigs rem with
        | none => [SplitPart.text rem]
        | some (pos, p, a) =>
            (if 0 < pos then [SplitPart.text (pyStrip (rem.take pos))] else []) ++
              SplitPart.cmd { type := splitKind a, content := a } ::
                splitGo trigs fuel (pyStrip (rem.drop (pos + p.length)))

/-- `VoiceController._split_by_triggers`. -/
def splitByTriggers (trigs : TriggerTable) (t : List Char) : List SplitPart :=
  splitGo trigs (t.length + 1) t

/-- Kind tag used by the whole-buffer branch of `_parse_transcription`
(`voice_controller.py:292`): `START_`/`STOP_`/`PAUSE_` prefixes yield control. -/
def parseKind (key : List Char) : VoiceCommandType :=
  if (chars "START_").isPrefixOf key || (chars "STOP_").isPrefixOf key ||
      (chars "PAUSE_").isPrefixOf key then
    VoiceCommandType.control
  else VoiceCommandType.key

/-- `VoiceController._parse_transcription` (`voice_controller.py:274-311`).
The whole-buffer trigger branch returns before `_process_text` is reached;
otherwise the parts are processed in order and the `re.error` raised inside
`_process_text` on the first text part propagates to the caller. -/
def parseTranscription (trigs : TriggerTable) (t : List Char) :
    Except (List Char) (List VoiceCommand) :=
  let tl := lowerStr t
  match lookupTbl trigs tl with
  | some key => Except.ok [{ type := parseKind key, content := key }]
  | none =>
      (splitByTriggers trigs t).foldlM
        (fun acc p =>
          match p with
          | SplitPart.cmd c => Except.ok (acc ++ [c])
          | SplitPart.text s => do
              let pt ← processText s
              pure (if pt = [] then acc
                    else acc ++ [{ type := VoiceCommandType.text, content := pt }]))
        []

/-! ## Engine state (`VoiceController.__init__`, `voice_controller.py:127-162`) -/

/-- The mutable per-instance state of `VoiceController` that the transcript
path touches (`is_recording`, `is_paused`, `transcription_buffer`,
`last_transcription_time`, `silence_threshold`, `command_history`,
`max_history`). -/
structure VCState where
  isRecording : Bool := false
  isPaused : Bool := false
  transcriptionBuffer : List Char := []
  lastTranscriptionTime : ℤ := 0
  silenceThreshold : ℤ := 2
  commandHistory : List VoiceCommand := []
  maxHistory : Nat := 100
deriving DecidableEq, Repr

/-- The state right after `__init__`. -/
def initialVCState : VCState := {}

/-- `VoiceController.pause` (`voice_controller.py:203-205`). -/
def pauseVC (s : VCState) : VCState := { s with isPaused := true }

/-- `VoiceController.resume` (`voice_controller.py:207-209`). -/
def resumeVC (s : VCState) : VCState := { s with isPaused := false }

/-- `VoiceController._handle_control_command` (`voice_controller.py:438-455`);
`CLEAR` and unknown tokens are left to the caller. -/
def handleControlCommand (command : List Char) (s : VCState) : VCState :=
  if command = chars "START_RECORDING" then resumeVC s
  else if command = chars "STOP_RECORDING" then pauseVC s
  else if command = chars "PAUSE_RECORDING" then pauseVC s
  else if command = chars "RESUME_RECORDING" then resumeVC s
  else s

/-- `VoiceController._execute_command` (`voice_controller.py:417-436`): stamp
the command, append to the bounded history (`pop(0)` past `max_history`),
deliver it to `on_command` (the returned list), then interpret control
commands. -/
def executeCommand (s : VCState) (c : VoiceCommand) (now : ℤ) : VCState × List VoiceCommand :=
  let c := { c with timestamp := now }
  let hist := s.commandHistory ++ [c]
  let hist := if s.maxHistory < hist.length then hist.drop 1 else hist
  let s := { s with commandHistory := hist }
  let s := if c.type = VoiceCommandType.control then handleControlCommand c.content s else s
  (s, [c])

/-- Kind tag used by `_check_for_triggers` (`voice_controller.py:396,410`):
only `START_`/`STOP_` prefixes yield a control command. -/
def checkKind (key : List Char) : VoiceCommandType :=
  if (chars "START_").isPrefixOf key || (chars "STOP_").isPrefixOf key then
    VoiceCommandType.control
  else VoiceCommandType.key

/-- `VoiceController._check_for_triggers` (`voice_controller.py:381-415`):
exact-match the fragment against the table, otherwise look for the first
table entry whose phrase, preceded by a space, ends the fragment; if text
precedes that trailing trigger the function returns nothing. -/
def checkForTriggers (trigs : TriggerTable) (text : List Char) : Option VoiceCommand :=
  let textLower := pyStrip (lowerStr text)
  match lookupTbl trigs textLower with
  | some key => some { type := checkKind key, content := key }
  | none =>
      match trigs.find? (fun e => (' ' :: e.1).isSuffixOf textLower) with
      | none => none
      | some (p, k) =>
          let textBefore := pyStrip (text.take (text.length - (p.length + 1)))
          if textBefore = [] then some { type := checkKind k, content := k }
          else none

/-- `VoiceController._should_process_buffer` (`voice_controller.py:240-257`). -/
def shouldProcessBuffer (trigs : TriggerTable) (s : VCState) (now : ℤ) : Bool :=
  if s.silenceThreshold < now - s.lastTranscriptionTime then true
  else
    let bufferLower := pyStrip (lowerStr s.transcriptionBuffer)
    trigs.any (fun e => e.1.isSuffixOf bufferLower)

/-- Result of one engine entry point: the object's state when control leaves
it, the commands delivered to `on_command`, and the exception that propagated
to the caller, if any.  Mutations made on the object before a raise persist. -/
structure StepResult where
  state : VCState
  emitted : List VoiceCommand
  raised : Option (List Char) := none
deriving DecidableEq, Repr

/-- `VoiceController._process_transcription_buffer`
(`voice_controller.py:259-272`): clear the buffer, parse its stripped
contents, and execute the resulting commands in order.  The buffer is cleared
before the parse, so it stays cleared when `_parse_transcription` raises. -/
def processTranscriptionBuffer (trigs : TriggerTable) (s : VCState) (now : ℤ) :
    StepResult :=
  if s.transcriptionBuffer = [] then { state := s, emitted := [] }
  else
    let buffer := pyStrip s.transcriptionBuffer
    let s := { s with transcriptionBuffer := [] }
    match parseTranscription trigs buffer with
    | Except.error e => { state := s, emitted := [], raised := some e }
    | Except.ok commands =>
        let r := commands.foldl
          (fun acc c =>
            let r := executeCommand acc.1 c now
            (r.1, acc.2 ++ r.2))
          (s, ([] : List VoiceCommand))
        { state := r.1, emitted := r.2 }

/-- `VoiceController._handle_transcription` (`voice_controller.py:211-238`):
the `onTranscriptFragment(text, isFinal)` entry point. -/
def handleTranscription (trigs : TriggerTable) (s : VCState) (text : List Char)
    (isFinal : Bool) (now : ℤ) : StepResult :=
  if s.isPaused then { state := s, emitted := [] }
  else
    let text := pyStrip text
    if text = [] then { state := s, emitted := [] }
    else
      let s := { s with
        transcriptionBuffer :=
          if s.transcriptionBuffer = [] then text
          else s.transcriptionBuffer ++ ' ' :: text,
        lastTranscriptionTime := now }
      match checkForTriggers trigs text with
      | some command =>
          let r := executeCommand s command now
          { state := { r.1 with transcriptionBuffer := [] }, emitted := r.2 }
      | none =>
          if isFinal || shouldProcessBuffer trigs s now then
            processTranscriptionBuffer trigs s now
          else { state := s, emitted := [] }

/-- Deliver a sequence of `(text, isFinal, arrivalTime)` fragments to
`_handle_transcription`, collecting every emitted command in order.  An
exception escaping one callback invocation propagates into the transcript
producer and stops the delivery. -/
def runFragments (trigs : TriggerTable) (s : VCState) :
    List (List Char × Bool × ℤ) → StepResult
  | [] => { state := s, emitted := [] }
  | (t, f, now) :: rest =>
      let r := handleTranscription trigs s t f now
      match r.raised with
      | some e => { state := r.state, emitted := r.emitted, raised := some e }
      | none =>
          let r2 := runFragments trigs r.state rest
          { state := r2.state, emitted := r.emitted ++ r2.emitted, raised := r2.raised }

/-! ## Custom triggers (`voice_controller.py:483-502`) -/

/-- `VoiceController.add_custom_trigger`: Python dict item assignment —
update in place if the key exists, else append. -/
def addCustomTrigger (tbl : TriggerTable) (phrase action : List Char) : TriggerTable :=
  let p := lowerStr phrase
  if tbl.any (fun e => e.1 == p) then
    tbl.map (fun e => if e.1 == p then (e.1, action) else e)
  else tbl ++ [(p, action)]

/-- `VoiceController.remove_custom_trigger`: `del` the entry if the key is
present (dict keys are unique, so removing the first match is `del`). -/
def removeCustomTrigger (tbl : TriggerTable) (phrase : List Char) : TriggerTable :=
  let p := lowerStr phrase
  if tbl.any (fun e => e.1 == p) then tbl.eraseP (fun e => e.1 == p) else tbl

/-! ## Terminal session controller (`terminal_controller.py`) -/

/-- The `TerminalController.TERMINALS` class attribute
(`terminal_controller.py:27-54`): launch command per terminal, per platform. -/
def TERMINALS : List (List Char × List (List Char × List (List Char))) := [
  (chars "Linux", [
    (chars "gnome-terminal", [chars "gnome-terminal", chars "--", chars "bash", chars "-c"]),
    (chars "konsole", [chars "konsole", chars "-e", chars "bash", chars "-c"]),
    (chars "xterm", [chars "xterm", chars "-e", chars "bash", chars "-c"]),
    (chars "terminator", [chars "terminator", chars "-e", chars "bash", chars "-c"]),
    (chars "alacritty", [chars "alacritty", chars "-e", chars "bash", chars "-c"]),
    (chars "kitty", [chars "kitty", chars "bash", chars "-c"]),
    (chars "xfce4-terminal", [chars "xfce4-terminal", chars "-e", chars "bash", chars "-c"]),
    (chars "mate-terminal", [chars "mate-terminal", chars "-e", chars "bash", chars "-c"]),
    (chars "lxterminal", [chars "lxterminal", chars "-e", chars "bash", chars "-c"]),
    (chars "tilix", [chars "tilix", chars "-e", chars "bash", chars "-c"])]),
  (chars "Darwin", [
    (chars "Terminal", [chars "open", chars "-a", chars "Terminal", chars "--args"]),
    (chars "iTerm", [chars "open", chars "-a", chars "iTerm", chars "--args"]),
    (chars "Alacritty", [chars "open", chars "-a", chars "Alacritty", chars "--args"]),
    (chars "Kitty", [chars "open", chars "-a", chars "Kitty", chars "--args"]),
    (chars "Hyper", [chars "open", chars "-a", chars "Hyper", chars "--args"])]),
  (chars "Windows", [
    (chars "cmd", [chars "cmd.exe", chars "/k"]),
    (chars "powershell", [chars "powershell.exe", chars "-NoExit", chars "-Command"]),
    (chars "wt", [chars "wt.exe", chars "-d", chars ".", chars "cmd.exe", chars "/k"]),
    (chars "conemu", [chars "ConEmu64.exe", chars "-run"]),
    (chars "cmder", [chars "cmder.exe", chars "/START"])])]

/-- `self.TERMINALS.get(self.system, {})`. -/
def terminalsFor (system : List Char) : List (List Char × List (List Char)) :=
  ((TERMINALS.find? (fun e => e.1 == system)).map (fun e => e.2)).getD []

/-- The mutable fields of `TerminalController` the session lifecycle touches
(`terminal_controller.py:56-80`). -/
structure TCState where
  system : List Char
  terminalType : Option (List Char) := none
  running : Bool := false
  process : Option Unit := none
  masterFd : Option Nat := none
  slaveFd : Option Nat := none
  stdinP : Option Unit := none
  stdoutP : Option Unit := none
  stderrP : Option Unit := none
deriving DecidableEq, Repr

/-- Deterministic stand-in for the OS environment a `start_terminal` call
observes: which executables `shutil.which` finds, and whether
`subprocess.Popen` succeeds (`pty.openpty` is modelled as infallible). -/
structure StartEnv where
  whichOk : List Char → Bool
  popenOk : Bool
  popenErrMsg : List Char

/-- `TerminalController._check_terminal_exists` (`terminal_controller.py:99-117`). -/
def checkTerminalExists (system : List Char) (env : StartEnv) (command : List Char) : Bool :=
  if system = chars "Windows" then
    if command = chars "cmd.exe" ∨ command = chars "powershell.exe" then true
    else env.whichOk command
  else env.whichOk command

/-- `TerminalController.get_available_terminals` (`terminal_controller.py:82-97`). -/
def getAvailableTerminals (system : List Char) (env : StartEnv) : List (List Char) :=
  (terminalsFor system).filterMap
    (fun e => if checkTerminalExists system env (e.2.headD []) then some e.1 else none)

/-- Result of a `start_terminal` call: the returned boolean, the state after
the call, the lines printed to stdout, and the messages delivered through the
`on_error` callback (`start_terminal` never invokes it). -/
structure StartResult where
  ok : Bool
  state : TCState
  printed : List (List Char)
  errors : List (List Char)
deriving DecidableEq, Repr

/-- Backend resolution of `start_terminal` (`terminal_controller.py:134-144`):
use the requested terminal when the table knows it, otherwise fall back to the
first available one; `none` when nothing resolves. -/
def resolveTerminalCmd (s : TCState) (terminalTypeArg : Option (List Char))
    (env : StartEnv) : Option (List (List Char)) :=
  let fallback : Option (List (List Char)) :=
    match getAvailableTerminals s.system env with
    | [] => none
    | first :: _ =>
        ((terminalsFor s.system).find? (fun e => e.1 == first)).map (fun e => e.2)
  match terminalTypeArg.orElse (fun _ => s.terminalType) with
  | some tname =>
      match (terminalsFor s.system).find? (fun e => e.1 == tname) with
      | some e => some e.2
      | none => fallback
  | none => fallback

/-- `TerminalController.start_terminal` (`terminal_controller.py:119-162`).
Spawn binds the pty pair on Unix-likes (`_start_unix_terminal`,
lines 164-180: the fds are assigned before `Popen`, so they stay assigned
even when `Popen` raises) and the pipe trio on Windows
(`_start_windows_terminal`, lines 182-197). -/
def startTerminal (s : TCState) (command : Option (List Char))
    (terminalTypeArg : Option (List Char)) (env : StartEnv) : StartResult :=
  if s.running then { ok := false, state := s, printed := [], errors := [] }
  else
    match resolveTerminalCmd s terminalTypeArg env with
    | none => { ok := false, state := s, printed := [], errors := [] }
    | some terminalCmd =>
        let _fullCmd := match command with
          | some c => terminalCmd ++ [c]
          | none => terminalCmd
        let isUnix := s.system = chars "Linux" ∨ s.system = chars "Darwin"
        let s := if isUnix then { s with masterFd := some 0, slaveFd := some 1 } else s
        if env.popenOk then
          let s :=
            if isUnix then { s with process := some () }
            else { s with process := some (), stdinP := some (), stdoutP := some (),
                          stderrP := some () }
          { ok := true, state := { s with running := true }, printed := [], errors := [] }
        else
          { ok := false, state := s,
            printed := [chars "Error starting terminal: " ++ env.popenErrMsg], errors := [] }

/-- Deterministic outcomes of the `stop_terminal` sub-steps: the
`terminate`/`killpg` signal (its failure is swallowed by `except: pass`),
`process.wait(timeout=5)` (raises `TimeoutExpired` on failure — not guarded),
and the two `os.close` calls. -/
structure StopEnv where
  signalOk : Bool
  waitOk : Bool
  closeMasterOk : Bool
  closeSlaveOk : Bool
deriving DecidableEq, Repr

/-- `TerminalController.stop_terminal` (`terminal_controller.py:343-365`).
Returns the state of the object when control leaves the method together with
the exception that propagated, if any (Python mutations performed before a
raise persist). -/
def stopTerminal (s : TCState) (env : StopEnv) : TCState × Option (List Char) :=
  let s := { s with running := false }
  match s.process with
  | some _ =>
      if env.waitOk then closeMasterStep { s with process := none } env
      else (s, some (chars "TimeoutExpired"))
  | none => closeMasterStep s env
where
  /-- `if self.master_fd: os.close(self.master_fd); self.master_fd = None`. -/
  closeMasterStep (s : TCState) (env : StopEnv) : TCState × Option (List Char) :=
    match s.masterFd with
    | some _ =>
        if env.closeMasterOk then closeSlaveStep { s with masterFd := none } env
        else (s, some (chars "OSError"))
    | none => closeSlaveStep s env
  /-- `if self.slave_fd: os.close(self.slave_fd); self.slave_fd = None`. -/
  closeSlaveStep (s : TCState) (env : StopEnv) : TCState × Option (List Char) :=
    match s.slaveFd with
    | some _ =>
        if env.closeSlaveOk then ({ s with slaveFd := none }, none)
        else (s, some (chars "OSError"))
    | none => (s, none)

/-! ## Class-level trigger table sharing (`voice_controller.py:46,483-502`) -/

/-- A world of `VoiceController` instances under Python attribute semantics:
one class-level `VOICE_TRIGGERS` dict, and per instance an optional
instance-level attribute of the same name.  `__init__`
(`voice_controller.py:127-162`) never assigns `self.VOICE_TRIGGERS`, so
constructed instances carry `none`. -/
structure PyWorld where
  classTable : TriggerTable
  instances : List (Option TriggerTable)
deriving DecidableEq, Repr

/-- Constructing a fresh `VoiceController` appends an instance with no
instance-level trigger attribute. -/
def newInstance (w : PyWorld) : PyWorld :=
  { w with instances := w.instances ++ [none] }

/-- Python attribute lookup `self.VOICE_TRIGGERS` on instance `i`: the
instance attribute if present, else the class attribute. -/
def effectiveTable (w : PyWorld) (i : Nat) : TriggerTable :=
  (w.instances.getD i none).getD w.classTable

/-- `add_custom_trigger` called on instance `i`:
`self.VOICE_TRIGGERS[phrase.lower()] = action` mutates, in place, the dict
object that attribute lookup finds. -/
def addTriggerOn (w : PyWorld) (i : Nat) (phrase action : List Char) : PyWorld :=
  match w.instances.getD i none with
  | none => { w with classTable := addCustomTrigger w.classTable phrase action }
  | some t => { w with instances := w.instances.set i (some (addCustomTrigger t phrase action)) }

/-- `remove_custom_trigger` called on instance `i`: `del` on the dict object
that attribute lookup finds. -/
def removeTriggerOn (w : PyWorld) (i : Nat) (phrase : List Char) : PyWorld :=
  match w.instances.getD i none with
  | none => { w with classTable := removeCustomTrigger w.classTable phrase }
  | some t => { w with instances := w.instances.set i (some (removeCustomTrigger t phrase)) }

/-! ## Helper lemmas -/

/-- A successful `findSub` search means the needle occurs in the haystack. -/
theorem infix_of_findSub_some {n h : List Char} {i : Nat} (hf : findSub n h = some i) :
    n <:+: h := by
  induction h generalizing i with
  | nil =>
      by_cases hp : n.isPrefixOf ([] : List Char) = true
      · exact (List.isPrefixOf_iff_prefix.mp hp).isInfix
      · simp [findSub, hp] at hf
  | cons c t ih =>
      by_cases hp : n.isPrefixOf (c :: t) = true
      · exact (List.isPrefixOf_iff_prefix.mp hp).isInfix
      · simp only [findSub, hp, if_false] at hf
        obtain ⟨j, hj, -⟩ := Option.map_eq_some'.mp hf
        exact List.infix_cons (ih hj)

/-- When no table phrase occurs in the text, the earliest-trigger scan finds
nothing. -/
theorem findEarliestGo_none {rem : List Char} {trigs : TriggerTable} {bp : Nat}
    (h : ∀ e ∈ trigs, findSub (lowerStr e.1) (lowerStr rem) = none) :
    findEarliestGo rem trigs bp none = none := by
  induction trigs generalizing bp with
  | nil => rfl
  | cons e rest ih =>
      obtain ⟨p, a⟩ := e
      have he : findSub (lowerStr p) (lowerStr rem) = none := h (p, a) (by simp)
      simp only [findEarliestGo, he]
      exact ih (fun e he' => h e (by simp [he']))

/-- `getD` over a list whose members are all `none` yields `none`. -/
theorem getD_none_of_all_none {l : List (Option TriggerTable)}
    (h : ∀ t ∈ l, t = none) (i : Nat) : l.getD i none = none := by
  induction l generalizing i with
  | nil => cases i <;> rfl
  | cons a l ih =>
      cases i with
      | zero => simpa using h a (by simp)
      | succ n => exact ih (fun t ht => h t (by simp [ht])) n

/-! ## Claims -/

/-- Fragment schedule of claim C1: `["open", "file", "dot", "txt", "enter"]`
delivered in order one time unit apart, `isFinal` only on the last. -/
def c1Fragments : List (List Char × Bool × ℤ) :=
  [(chars "open", false, 0), (chars "file", false, 1), (chars "dot", false, 2),
   (chars "txt", false, 3), (chars "enter", true, 4)]

/-- Claim C1, counterexample: delivering `["open","file","dot","txt","enter"]`
(`isFinal` only on the last) emits only `Key("Enter")` — not the claimed
`[Text("open file.txt"), Key("Enter")]`.  The final fragment exactly matches a
trigger, so `_handle_transcription` takes the immediate path and clears the
buffer without flushing it. -/
theorem C1_counterexample :
    ((runFragments VOICE_TRIGGERS initialVCState c1Fragments).emitted.map
        (fun c => (c.type, c.content)) = [(VoiceCommandType.key, chars "Enter")]) ∧
    ((runFragments VOICE_TRIGGERS initialVCState c1Fragments).emitted.map
        (fun c => (c.type, c.content)) ≠
      [(VoiceCommandType.text, chars "open file.txt"),
       (VoiceCommandType.key, chars "Enter")]) := by
  constructor
  · decide
  · decide

/-- Claim C1, amended: the run emits exactly `[Key("Enter")]` and leaves the
buffer empty — the buffered text `"open file dot txt"` is discarded, not
flushed, when the trigger fragment arrives. -/
theorem C1_theorem :
    ((runFragments VOICE_TRIGGERS initialVCState c1Fragments).emitted.map
        (fun c => (c.type, c.content)) = [(VoiceCommandType.key, chars "Enter")]) ∧
    (runFragments VOICE_TRIGGERS initialVCState c1Fragments).state.transcriptionBuffer = [] ∧
    (runFragments VOICE_TRIGGERS initialVCState c1Fragments).raised = none := by
  refine ⟨?_, ?_, ?_⟩
  · decide
  · decide
  · decide

/-- Claim C2: the silence flush never happens.  Concretely, after `"hello"` at
time 0 a further non-trigger fragment at time 10 (far beyond the 2-unit
threshold) still emits nothing and leaves the buffer unflushed; and in
general, `_handle_transcription` refreshes `last_transcription_time` before
`_should_process_buffer` reads it, so the elapsed-silence condition compares
`now - now` against the threshold and is dead code whenever the threshold is
nonnegative. -/
theorem C2_theorem :
    ((runFragments VOICE_TRIGGERS initialVCState
        [(chars "hello", false, 0), (chars "world", false, 10)]).emitted = [] ∧
      (runFragments VOICE_TRIGGERS initialVCState
        [(chars "hello", false, 0), (chars "world", false, 10)]).state.transcriptionBuffer =
        chars "hello world" ∧
      (runFragments VOICE_TRIGGERS initialVCState
        [(chars "hello", false, 0), (chars "world", false, 10)]).raised = none) ∧
    (∀ (trigs : TriggerTable) (s : VCState) (now : ℤ), 0 ≤ s.silenceThreshold →
      shouldProcessBuffer trigs { s with lastTranscriptionTime := now } now =
        trigs.any (fun e => e.1.isSuffixOf (pyStrip (lowerStr s.transcriptionBuffer)))) := by
  refine ⟨⟨by decide, by decide, by decide⟩, ?_⟩
  intro trigs s now h
  unfold shouldProcessBuffer
  rw [if_neg (by simpa using not_lt.mpr h)]

/-- Witness for claim C2's general conjunct at a concrete state and time. -/
theorem C2_witness :
    shouldProcessBuffer VOICE_TRIGGERS
        { initialVCState with lastTranscriptionTime := 10 } 10 =
      VOICE_TRIGGERS.any
        (fun e => e.1.isSuffixOf (pyStrip (lowerStr initialVCState.transcriptionBuffer))) :=
  C2_theorem.2 VOICE_TRIGGERS initialVCState 10 (by decide)

/-- Claim C3, counterexample: a paused engine discards the fragment
`"start recording"` outright (`voice_controller.py:219-220`), so a spoken
start trigger cannot return a `Paused` engine to `Active`. -/
theorem C3_counterexample :
    handleTranscription VOICE_TRIGGERS (pauseVC initialVCState)
        (chars "start recording") false 1 =
      { state := pauseVC initialVCState, emitted := [] } ∧
    (pauseVC initialVCState).isPaused = true := by
  constructor
  · decide
  · decide

/-- Claim C3, amended: a `START_RECORDING`/`STOP_RECORDING` control command
that reaches `_handle_control_command` has exactly the effect of an explicit
`resume()`/`pause()`, and a `"stop recording"` fragment spoken to an active
engine does pause it; but every fragment delivered to a paused engine is
discarded unchanged, so voice alone can never resume. -/
theorem C3_theorem (s : VCState) :
    handleControlCommand (chars "START_RECORDING") s = resumeVC s ∧
    handleControlCommand (chars "STOP_RECORDING") s = pauseVC s ∧
    (∀ now : ℤ, (handleTranscription VOICE_TRIGGERS initialVCState
        (chars "stop recording") false now).state.isPaused = true) ∧
    (s.isPaused = true → ∀ text isFinal now,
      handleTranscription VOICE_TRIGGERS s text isFinal now = { state := s, emitted := [] }) := by
  refine ⟨rfl, rfl, fun now => rfl, ?_⟩
  intro hp text isFinal now
  simp [handleTranscription, hp]

/-- Witness for claim C3 at the paused initial state. -/
theorem C3_witness :
    handleControlCommand (chars "START_RECORDING") (pauseVC initialVCState) =
        resumeVC (pauseVC initialVCState) ∧
    handleTranscription VOICE_TRIGGERS (pauseVC initialVCState)
        (chars "start recording") false 1 =
      { state := pauseVC initialVCState, emitted := [] } := by
  refine ⟨(C3_theorem (pauseVC initialVCState)).1, ?_⟩
  exact (C3_theorem (pauseVC initialVCState)).2.2.2 rfl (chars "start recording") false 1

/-- Claim C4: the whole-buffer trigger branch of `_parse_transcription` tags
`RESUME_RECORDING` and `CLEAR` as `Key` commands, not `Control` — its prefix
test checks only `START_`/`STOP_`/`PAUSE_` (`voice_controller.py:292`). -/
theorem C4_theorem :
    parseTranscription VOICE_TRIGGERS (chars "resume recording") =
      Except.ok [{ type := VoiceCommandType.key, content := chars "RESUME_RECORDING" }] ∧
    parseTranscription VOICE_TRIGGERS (chars "clear terminal") =
      Except.ok [{ type := VoiceCommandType.key, content := chars "CLEAR" }] ∧
    parseTranscription VOICE_TRIGGERS (chars "clear screen") =
      Except.ok [{ type := VoiceCommandType.key, content := chars "CLEAR" }] := by
  refine ⟨?_, ?_, ?_⟩
  · decide
  · decide
  · decide

/-- Claim C5: `remove_custom_trigger("enter")` deletes the built-in `"enter"`
mapping from the (single, shared) trigger table.  Default behavior is
corrupted: before the removal `"enter"` parses to the Enter key; afterwards it
is no whole-buffer trigger any more, so parsing it reaches `_process_text`,
which raises `re.error` (invalid `"\\"` replacement template). -/
theorem C5_theorem :
    lookupTbl VOICE_TRIGGERS (chars "enter") = some (chars "Enter") ∧
    parseTranscription VOICE_TRIGGERS (chars "enter") =
      Except.ok [{ type := VoiceCommandType.key, content := chars "Enter" }] ∧
    lookupTbl (removeCustomTrigger VOICE_TRIGGERS (chars "enter")) (chars "enter") = none ∧
    parseTranscription (removeCustomTrigger VOICE_TRIGGERS (chars "enter")) (chars "enter") =
      Except.error badEscapeMsg := by
  refine ⟨?_, ?_, ?_, ?_⟩
  · decide
  · decide
  · decide
  · decide

/-- Claim C9, counterexample: after `addTrigger("foo","Tab")` followed by
`removeTrigger("foo")`, the text `"foo"` is *not* segmented as literal text —
segmenting it raises `re.error` inside `_process_text` (the `"backslash"`
entry's `"\\"` replacement is an invalid template that is rejected before any
matching), so no `Text("foo")` command is ever produced. -/
theorem C9_counterexample :
    parseTranscription
        (removeCustomTrigger (addCustomTrigger VOICE_TRIGGERS (chars "foo") (chars "Tab"))
          (chars "foo"))
        (chars "foo") = Except.error badEscapeMsg ∧
    parseTranscription
        (removeCustomTrigger (addCustomTrigger VOICE_TRIGGERS (chars "foo") (chars "Tab"))
          (chars "foo"))
        (chars "foo") ≠
      Except.ok [{ type := VoiceCommandType.text, content := chars "foo" }] := by
  constructor
  · decide
  · decide

/-- Claim C9, amended: adding the fresh trigger `"foo" -> "Tab"` and then
removing it restores the trigger table exactly, and with it every prior
segmentation behavior; while present, `"foo"` segments to `Key("Tab")`, and
afterwards `"foo"` no longer matches as a trigger — but it is not segmented
as literal text: exactly as before the customization, parsing it raises
`re.error` from `_process_text`. -/
theorem C9_theorem :
    removeCustomTrigger (addCustomTrigger VOICE_TRIGGERS (chars "foo") (chars "Tab"))
        (chars "foo") = VOICE_TRIGGERS ∧
    parseTranscription (addCustomTrigger VOICE_TRIGGERS (chars "foo") (chars "Tab"))
        (chars "foo") = Except.ok [{ type := VoiceCommandType.key, content := chars "Tab" }] ∧
    parseTranscription VOICE_TRIGGERS (chars "foo") = Except.error badEscapeMsg := by
  refine ⟨?_, ?_, ?_⟩
  · decide
  · decide
  · decide

/-- A stopped-since-construction controller on Linux. -/
def c6State : TCState := { system := chars "Linux" }

/-- Environment where every terminal binary exists but `Popen` raises. -/
def c6SpawnFailEnv : StartEnv :=
  { whichOk := fun _ => true, popenOk := false, popenErrMsg := chars "boom" }

/-- Environment where no terminal binary exists. -/
def c6NoBackendEnv : StartEnv :=
  { whichOk := fun _ => false, popenOk := true, popenErrMsg := [] }

/-- Claim C6, counterexample: when `Popen` raises, `start_terminal` returns
false and the session stays stopped, but the failure goes to `print`, never to
the `on_error` callback; when no backend resolves it returns false silently.
The claimed `onError` report does not happen. -/
theorem C6_counterexample :
    ((startTerminal c6State none none c6SpawnFailEnv).ok = false ∧
      (startTerminal c6State none none c6SpawnFailEnv).state.running = false ∧
      (startTerminal c6State none none c6SpawnFailEnv).errors = [] ∧
      (startTerminal c6State none none c6SpawnFailEnv).printed =
        [chars "Error starting terminal: boom"]) ∧
    ((startTerminal c6State none none c6NoBackendEnv).ok = false ∧
      (startTerminal c6State none none c6NoBackendEnv).errors = [] ∧
      (startTerminal c6State none none c6NoBackendEnv).printed = []) := by
  constructor
  · decide
  · decide

/-- Claim C6, amended: from a stopped session, `start_terminal` never invokes
`on_error`, and whenever it returns false the session is still stopped (the
spawn failure is printed to stdout, a backend-resolution failure is silent). -/
theorem C6_theorem (s : TCState) (cmdArg tArg : Option (List Char)) (env : StartEnv)
    (h : s.running = false) :
    (startTerminal s cmdArg tArg env).errors = [] ∧
    ((startTerminal s cmdArg tArg env).ok = false →
      (startTerminal s cmdArg tArg env).state.running = false) := by
  unfold startTerminal
  rw [if_neg (by simp [h])]
  cases resolveTerminalCmd s tArg env with
  | none => simp [h]
  | some cmd =>
      by_cases hp : env.popenOk = true
      · simp [hp]
      · by_cases hu : s.system = chars "Linux" ∨ s.system = chars "Darwin"
        · simp [hp, hu, h]
        · simp [hp, hu, h]

/-- Witness for claim C6 at the concrete spawn-failure scenario. -/
theorem C6_witness :
    (startTerminal c6State none none c6SpawnFailEnv).errors = [] ∧
    (startTerminal c6State none none c6SpawnFailEnv).state.running = false := by
  have h := C6_theorem c6State none none c6SpawnFailEnv rfl
  exact ⟨h.1, h.2 (by decide)⟩

/-- A running Linux session: live process, both pty descriptors open. -/
def c7RunningState : TCState :=
  { system := chars "Linux", running := true, process := some (),
    masterFd := some 0, slaveFd := some 1 }

/-- A session in the canonical stopped shape. -/
def c7StoppedState : TCState := { system := chars "Linux" }

/-- Environment where `process.wait(timeout=5)` times out. -/
def c7WaitTimeoutEnv : StopEnv :=
  { signalOk := true, waitOk := false, closeMasterOk := true, closeSlaveOk := true }

/-- Environment where every cleanup sub-step succeeds. -/
def c7AllOkEnv : StopEnv :=
  { signalOk := true, waitOk := true, closeMasterOk := true, closeSlaveOk := true }

/-- Claim C7, counterexample: if the child does not exit within the bounded
wait, `process.wait(timeout=5)` — which is outside the `try` — raises
`TimeoutExpired` out of `stop_terminal`, and the descriptor cleanup is
skipped (the process handle and both descriptors are still held). -/
theorem C7_counterexample :
    stopTerminal c7RunningState c7WaitTimeoutEnv =
      ({ c7RunningState with running := false }, some (chars "TimeoutExpired")) := by
  decide

/-- Claim C7, amended: `stop_terminal` always clears the running flag first;
on an already-stopped session it is a no-op returning without error (the
swallowed signal step never matters), and when the wait and both descriptor
closes succeed it returns without error with everything released.  A failing
wait or close, however, propagates an exception. -/
theorem C7_theorem (s : TCState) (env : StopEnv) :
    (stopTerminal s env).1.running = false ∧
    (s.process = none → s.masterFd = none → s.slaveFd = none →
      stopTerminal s env = ({ s with running := false }, none)) ∧
    (env.waitOk = true → env.closeMasterOk = true → env.closeSlaveOk = true →
      stopTerminal s env =
        ({ s with running := false, process := none, masterFd := none,
                  slaveFd := none }, none)) := by
  obtain ⟨sys, tt, run, proc, mfd, sfd, si, so, se⟩ := s
  obtain ⟨sig, w, cm, cs⟩ := env
  refine ⟨?_, ?_, ?_⟩
  · cases proc <;> cases w <;> cases mfd <;> cases cm <;> cases sfd <;> cases cs <;>
      simp [stopTerminal, stopTerminal.closeMasterStep, stopTerminal.closeSlaveStep]
  · intro h1 h2 h3
    subst h1; subst h2; subst h3
    simp [stopTerminal, stopTerminal.closeMasterStep, stopTerminal.closeSlaveStep]
  · intro h1 h2 h3
    subst h1; subst h2; subst h3
    cases proc <;> cases mfd <;> cases sfd <;>
      simp [stopTerminal, stopTerminal.closeMasterStep, stopTerminal.closeSlaveStep]

/-- Witness for claim C7: the stopped no-op and the clean full stop. -/
theorem C7_witness :
    stopTerminal c7StoppedState c7AllOkEnv = ({ c7StoppedState with running := false }, none) ∧
    stopTerminal c7RunningState c7AllOkEnv =
      ({ c7RunningState with
           running := false, process := none, masterFd := none, slaveFd := none }, none) := by
  refine ⟨?_, ?_⟩
  · exact (C7_theorem c7StoppedState c7AllOkEnv).2.1 rfl rfl rfl
  · exact (C7_theorem c7RunningState c7AllOkEnv).2.2 rfl rfl rfl

/-- Claim C8: segmenting trigger-free text never yields the claimed `Text`
command, because `_process_text` unconditionally raises `re.error`: the
`"backslash"` entry's one-backslash symbol is an invalid `re.sub` replacement
template, rejected when `pattern.sub` parses it — before and regardless of any
matching.  First: `_process_text` raises on every input.  Second: segmenting
any nonempty text containing no trigger phrase (as a case-insensitive
substring) propagates that exception instead of emitting a `Text` command. -/
theorem C8_theorem :
    (∀ t : List Char, processText t = Except.error badEscapeMsg) ∧
    (∀ t : List Char, t ≠ [] →
      (∀ e ∈ VOICE_TRIGGERS, ¬ (e.1 <:+: lowerStr t)) →
      parseTranscription VOICE_TRIGGERS t = Except.error badEscapeMsg) := by
  have hpt : ∀ t : List Char, processText t = Except.error badEscapeMsg := fun t => rfl
  refine ⟨hpt, ?_⟩
  intro t ht h
  have hlow : ∀ e ∈ VOICE_TRIGGERS, lowerStr e.1 = e.1 := by decide
  have hfs : ∀ e ∈ VOICE_TRIGGERS, findSub (lowerStr e.1) (lowerStr t) = none := by
    intro e he
    rw [hlow e he]
    cases hf : findSub e.1 (lowerStr t) with
    | none => rfl
    | some i => exact absurd (infix_of_findSub_some hf) (h e he)
  have hfind : List.find? (fun e => e.1 == lowerStr t) VOICE_TRIGGERS = none := by
    refine List.find?_eq_none.mpr ?_
    intro e he hbeq
    refine h e he ?_
    have hbeq' : (e.1 == lowerStr t) = true := hbeq
    rw [beq_iff_eq.mp hbeq']
  have hlookup : lookupTbl VOICE_TRIGGERS (lowerStr t) = none := by
    unfold lookupTbl
    rw [hfind]
    rfl
  have hfe : findEarliest VOICE_TRIGGERS t = none := by
    unfold findEarliest
    exact findEarliestGo_none hfs
  simp only [parseTranscription, hlookup]
  unfold splitByTriggers
  simp only [splitGo, if_neg ht, hfe]
  simp [List.foldlM, hpt t]

/-- Witness for claim C8 at `"hello world"`, which is nonempty and holds no
trigger phrase: segmenting it raises the bad-escape `re.error`. -/
theorem C8_witness :
    chars "hello world" ≠ [] ∧
    (∀ e ∈ VOICE_TRIGGERS, ¬ (e.1 <:+: lowerStr (chars "hello world"))) ∧
    parseTranscription VOICE_TRIGGERS (chars "hello world") =
      Except.error badEscapeMsg := by
  refine ⟨by decide, by decide, ?_⟩
  exact C8_theorem.2 (chars "hello world") (by decide) (by decide)

/-- Claim C10: the trigger table is class-level shared state.  In any world
whose instances all lack an instance-level `VOICE_TRIGGERS` attribute (which
`__init__` never sets), `add_custom_trigger`/`remove_custom_trigger` invoked
on any instance mutate the class table, and the table every instance —
including one constructed afterwards — observes is that same mutated table. -/
theorem C10_theorem (w : PyWorld) (i : Nat) (phrase action : List Char)
    (h : ∀ t ∈ w.instances, t = none) :
    (∀ j, effectiveTable (addTriggerOn w i phrase action) j =
        addCustomTrigger w.classTable phrase action) ∧
    (∀ j, effectiveTable (newInstance (addTriggerOn w i phrase action)) j =
        addCustomTrigger w.classTable phrase action) ∧
    (∀ j, effectiveTable (removeTriggerOn w i phrase) j =
        removeCustomTrigger w.classTable phrase) := by
  obtain ⟨ct, inst⟩ := w
  have hi : inst.getD i none = none := getD_none_of_all_none h i
  have hext : ∀ t ∈ inst ++ [none], t = (none : Option TriggerTable) := by
    intro t ht
    rcases List.mem_append.mp ht with h1 | h1
    · exact h t h1
    · simpa using h1
  refine ⟨?_, ?_, ?_⟩
  · intro j
    simp only [addTriggerOn, hi, effectiveTable]
    rw [getD_none_of_all_none h j]
    rfl
  · intro j
    simp only [addTriggerOn, hi, newInstance, effectiveTable]
    rw [getD_none_of_all_none hext j]
    rfl
  · intro j
    simp only [removeTriggerOn, hi, effectiveTable]
    rw [getD_none_of_all_none h j]
    rfl

/-- A world with the default class table and two freshly built instances. -/
def c10World : PyWorld := { classTable := VOICE_TRIGGERS, instances := [none, none] }

/-- Witness for claim C10: adding `"foo"` through instance 0 is observed by
instance 1 and by an instance constructed after the mutation. -/
theorem C10_witness :
    effectiveTable (addTriggerOn c10World 0 (chars "foo") (chars "Tab")) 1 =
      addCustomTrigger VOICE_TRIGGERS (chars "foo") (chars "Tab") ∧
    effectiveTable (newInstance (addTriggerOn c10World 0 (chars "foo") (chars "Tab"))) 2 =
      addCustomTrigger VOICE_TRIGGERS (chars "foo") (chars "Tab") := by
  have h := C10_theorem c10World 0 (chars "foo") (chars "Tab") (by decide)
  exact ⟨h.1 1, h.2.1 2⟩
